import Mathlib

/-!
# goftdi: the Windows binding layer (`ftdi_windows.go`)

A shallow embedding of the Go source.  Conventions:

* a byte is a `Nat` (values below 256), a Go `string` is its list of bytes;
* `int32` values are `Int`, unsigned machine words are `Nat`; every Go
  conversion that can change a value (`uint32(..)`, `byte(..)`, `int(..)`,
  `uintptr(..)`) is an explicit function with the wrap-around written out;
* the width of `int` and `uintptr` is the parameter `W` (32 or 64) of the
  three functions whose result depends on it;
* the vendor DLL is a record of reply functions (`Driver`), one per entry
  point; an operation returns what the Go function returns together with the
  ordered log of native calls and delays it performed;
* a Go run-time failure is the outcome `panicked`.
-/

namespace Ftdi

/-! ## Machine integers -/

/-- Go conversion `uint32(x)` of a non-negative integer (`len(p)`, a `uint`). -/
def uint32OfNat (x : Nat) : Nat := x % 4294967296

/-- Go conversion `uint32(x)` of a signed integer (two's complement). -/
def uint32OfInt (x : Int) : Nat := (x % 4294967296).toNat

/-- Go conversion `uint16(x)`. -/
def uint16OfInt (x : Int) : Nat := (x % 65536).toNat

/-- Go conversion `byte(x)` of a signed integer. -/
def byteOfInt (x : Int) : Nat := (x % 256).toNat

/-- Go conversion `uintptr(x)` of an unsigned value, `uintptr` being `W` bits wide. -/
def uintptrOfNat (W : Nat) (x : Nat) : Nat := x % 2 ^ W

/-- Go conversion `int(x)` of an unsigned value, `int` being `W` bits wide
(two's complement: the upper half of the range reads as negative). -/
def intOfNat (W : Nat) (x : Nat) : Int :=
  if x % 2 ^ W < 2 ^ (W - 1) then ((x % 2 ^ W : Nat) : Int)
  else ((x % 2 ^ W : Nat) : Int) - ((2 ^ W : Nat) : Int)

/-! ## Outcomes -/

/-- The two Go run-time failures the file can raise. -/
inductive Panic where
  | sliceBoundsOutOfRange
  | indexOutOfRange
  deriving DecidableEq, Repr

/-- Result of running a Go function: it returns, or it panics. -/
inductive Outcome (α : Type) where
  | returned (a : α)
  | panicked (why : Panic)
  deriving DecidableEq, Repr

/-! ## `bytesToString` -/

/-- Whether `sep` occurs at the very start of `s`. -/
def startsWith : List Nat → List Nat → Bool
  | _, [] => true
  | [], _ :: _ => false
  | x :: xs, y :: ys => x == y && startsWith xs ys

/-- Scan of `bytes.Index`: `i` is the offset of `s` in the original slice. -/
def bytesIndexFrom (sep : List Nat) : List Nat → Nat → Int
  | [], i => if startsWith [] sep then (i : Int) else -1
  | x :: xs, i => if startsWith (x :: xs) sep then (i : Int) else bytesIndexFrom sep xs (i + 1)

/-- Go standard library `bytes.Index(s, sep)`: index of the first instance of
`sep` in `s`, or `-1` when `sep` is not present. -/
def bytesIndex (s sep : List Nat) : Int := bytesIndexFrom sep s 0

/-- Go slice expression `b[:n]`: a run-time failure unless `0 <= n <= len(b)`. -/
def sliceTo (b : List Nat) (n : Int) : Outcome (List Nat) :=
  if 0 ≤ n ∧ n ≤ (b.length : Int) then Outcome.returned (b.take n.toNat)
  else Outcome.panicked Panic.sliceBoundsOutOfRange

/-- Source `bytesToString`: `n := bytes.Index(b, []byte{0}); return string(b[:n])`. -/
def bytesToString (b : List Nat) : Outcome (List Nat) :=
  let n := bytesIndex b [0]
  sliceTo b n

/-! ## The native layer -/

/-- The entry points bound from `ftd2xx.dll` (the `var (...)` block). -/
inductive Proc where
  | createDeviceInfoList
  | getDeviceInfoDetail
  | ft_open
  | ft_close
  | ft_read
  | ft_write
  | ft_getStatus
  | ft_purge
  | setBaudRate
  | setBitMode
  | setFlowControl
  | setLatency
  | setChars
  | setLineProperty
  | setTimeout
  | setTransferSize
  | resetPort
  | resetDevice
  deriving DecidableEq, Repr

/-- One argument of `Proc.Call`: an integer value, or the address of a Go
variable or buffer the native layer writes to or reads from. -/
inductive Arg where
  | val (v : Nat)
  | ptr
  deriving DecidableEq, Repr

/-- What an operation does that is visible outside it, in order. -/
inductive Event where
  | call (proc : Proc) (args : List Arg)
  | sleep (nanoseconds : Nat)
  deriving DecidableEq, Repr

/-- Go `error` result: `none` is `nil`, `some errno` the `syscall.Errno` that
`Proc.Call` returned as `lastErr` (always a non-nil interface value). -/
abbrev GoError := Option Nat

/-- `r1` and `lastErr` of a `Proc.Call`. -/
structure Reply where
  r : Nat
  err : Nat
  deriving DecidableEq, Repr

/-- Reply of `FT_CreateDeviceInfoList`: `n` is the content of `var n uint32`
after the call. -/
structure CountReply where
  r : Nat
  err : Nat
  n : Nat
  deriving DecidableEq, Repr

/-- Reply of `FT_GetDeviceInfoDetail`: the contents, after the call, of the
variables whose addresses were passed; `sn` and `description` are the bytes
the native layer stored from the start of the two arrays. -/
structure DetailReply where
  r : Nat
  err : Nat
  flags : Nat
  dtype : Nat
  id : Nat
  location : Nat
  sn : List Nat
  description : List Nat
  handle : Nat
  deriving DecidableEq, Repr

/-- Reply of `FT_Open`: `dev` is the content of `var dev Device` after the call. -/
structure OpenReply where
  r : Nat
  err : Nat
  dev : Nat
  deriving DecidableEq, Repr

/-- Reply of `FT_GetStatus`: the three `int32` result variables after the call. -/
structure StatusReply where
  r : Nat
  err : Nat
  rx_queue : Int
  tx_queue : Int
  events : Int
  deriving DecidableEq, Repr

/-- Reply of `FT_Read` and `FT_Write`: `count` is the content of the `uint32`
variable `bytesRead` or `bytesWritten` after the call. -/
structure TransferReply where
  r : Nat
  err : Nat
  count : Nat
  deriving DecidableEq, Repr

/-- The native driver as seen by one operation: for every entry point, the
reply as a function of the integer arguments (and, for a write, of the bytes
in the buffer). -/
structure Driver where
  createDeviceInfoList : CountReply
  getDeviceInfoDetail : Nat → DetailReply
  ft_open : Nat → OpenReply
  ft_getStatus : Nat → StatusReply
  ft_read : Nat → Nat → TransferReply
  ft_write : Nat → List Nat → Nat → TransferReply
  simple : Proc → List Nat → Reply

/-- An operation run: the ordered log of native calls and delays, and what
the Go function returned (or the failure it stopped with). -/
structure Run (α : Type) where
  log : List Event
  out : Outcome α

/-! ## Data model -/

/-- Source `type Device uintptr`. -/
abbrev Device := Nat

/-- Source `type DeviceInfo struct`; strings are their bytes. -/
structure DeviceInfo where
  index : Nat
  flags : Nat
  dtype : Nat
  id : Nat
  location : Nat
  SerialNumber : List Nat
  Description : List Nat
  handle : Nat
  deriving DecidableEq, Repr

/-- The Go zero value of `DeviceInfo`, as `make([]DeviceInfo, n)` fills it in. -/
def DeviceInfo.zero : DeviceInfo :=
  { index := 0, flags := 0, dtype := 0, id := 0, location := 0,
    SerialNumber := [], Description := [], handle := 0 }

/-- Modelled from the spec: the declaration of `BitMode` is in another file of
the package; the source only applies `byte(mode)` to it, so it is an integer. -/
abbrev BitMode := Int

/-- Modelled from the spec: the declaration of `FlowControl` is in another file
of the package; the source only applies `uint16(f)` to it, so it is an integer. -/
abbrev FlowControl := Int

/-- Modelled from the spec: `LineProperties` is `{bits, stopBits, parity}`,
declared in another file of the package; the source applies `byte(..)` to each
field, so each is an integer. -/
structure LineProperties where
  Bits : Int
  StopBits : Int
  Parity : Int
  deriving DecidableEq, Repr

/-- A fixed-size Go byte array (`var sn [16]byte`) after the native layer
stored `written` from its start: zero-initialised, `size` bytes long. -/
def fixedArray (size : Nat) (written : List Nat) : List Nat :=
  (written ++ List.replicate size 0).take size

/-! ## `GetDeviceList` -/

/-- The argument list of the `getDeviceInfoDetail.Call` of iteration `i`. -/
def detailArgs (i : Nat) : List Arg :=
  [Arg.val i, Arg.ptr, Arg.ptr, Arg.ptr, Arg.ptr, Arg.ptr, Arg.ptr, Arg.ptr]

/-- The `for i := uint32(0); i < n; i++` loop of `GetDeviceList`, with `todo`
iterations left to run (`todo = n - i`), `di` the slice so far and `log` the
calls made so far. -/
def detailLoop (drv : Driver) :
    Nat → Nat → List DeviceInfo → List Event → Run (List DeviceInfo × GoError)
  | 0, _, di, log => { log := log, out := Outcome.returned (di, none) }
  | todo + 1, i, di, log =>
    let rep := drv.getDeviceInfoDetail i
    let log1 := log ++ [Event.call Proc.getDeviceInfoDetail (detailArgs i)]
    if rep.r ≠ 0 then
      { log := log1, out := Outcome.returned (di, some rep.err) }
    else
      match bytesToString (fixedArray 16 rep.sn) with
      | Outcome.panicked why => { log := log1, out := Outcome.panicked why }
      | Outcome.returned serial =>
        match bytesToString (fixedArray 64 rep.description) with
        | Outcome.panicked why => { log := log1, out := Outcome.panicked why }
        | Outcome.returned descr =>
          let d : DeviceInfo :=
            { index := i, flags := rep.flags, dtype := rep.dtype, id := rep.id,
              location := rep.location, SerialNumber := serial,
              Description := descr, handle := rep.handle }
          detailLoop drv todo (i + 1) (di.set i d) log1

/-- Source `GetDeviceList`. -/
def GetDeviceList (drv : Driver) : Run (List DeviceInfo × GoError) :=
  let rep := drv.createDeviceInfoList
  let log0 := [Event.call Proc.createDeviceInfoList [Arg.ptr]]
  if rep.r ≠ 0 then
    { log := log0, out := Outcome.returned ([], some rep.err) }
  else
    detailLoop drv rep.n 0 (List.replicate rep.n DeviceInfo.zero) log0

/-! ## Session lifecycle, status and I/O -/

/-- Source `Open`: the result is `(*Device, error)`, `none` being the nil pointer. -/
def Open (W : Nat) (drv : Driver) (di : DeviceInfo) : Run (Option Device × GoError) :=
  let rep := drv.ft_open (uintptrOfNat W di.index)
  { log := [Event.call Proc.ft_open [Arg.val (uintptrOfNat W di.index), Arg.ptr]],
    out := if rep.r = 0 then Outcome.returned (some rep.dev, none)
           else Outcome.returned (none, some rep.err) }

/-- The shape shared by every operation that makes one call without output
data: `r, _, e := proc.Call(..); if r == 0 { return nil }; return e`. -/
def simpleCall (drv : Driver) (proc : Proc) (args : List Nat) : Run GoError :=
  let rep := drv.simple proc args
  { log := [Event.call proc (args.map Arg.val)],
    out := if rep.r = 0 then Outcome.returned none else Outcome.returned (some rep.err) }

/-- Source `(*Device).Close`. -/
def Device.Close (drv : Driver) (d : Device) : Run GoError :=
  simpleCall drv Proc.ft_close [d]

/-- Source `(*Device).GetStatus`: returns `(rx_queue, tx_queue, events, e)`. -/
def Device.GetStatus (drv : Driver) (d : Device) : Run (Int × Int × Int × GoError) :=
  let rep := drv.ft_getStatus d
  { log := [Event.call Proc.ft_getStatus [Arg.val d, Arg.ptr, Arg.ptr, Arg.ptr]],
    out := if rep.r = 0 then Outcome.returned (rep.rx_queue, rep.tx_queue, rep.events, none)
           else Outcome.returned (rep.rx_queue, rep.tx_queue, rep.events, some rep.err) }

/-- The delay of `Read`: `20*time.Millisecond`, in nanoseconds. -/
def readDelay : Nat := 20 * 1000000

/-- Source `(*Device).Read`.  The `e` of the status query is overwritten by the
`e` of `ft_read.Call` before anything reads it; `&p[0]` is evaluated after the
status query and the delay, and fails on an empty slice. -/
def Device.Read (W : Nat) (drv : Driver) (d : Device) (p : List Nat) : Run (Int × GoError) :=
  let bytesToRead := uint32OfNat p.length
  let st := Device.GetStatus drv d
  match st.out with
  | Outcome.panicked why => { log := st.log, out := Outcome.panicked why }
  | Outcome.returned (rx_cnt, _, _, _) =>
    let clamp : Bool := decide (bytesToRead > uint32OfInt rx_cnt)
    let log1 := if clamp then st.log ++ [Event.sleep readDelay] else st.log
    let bytesToRead := if clamp then uint32OfInt rx_cnt else bytesToRead
    match p with
    | [] => { log := log1, out := Outcome.panicked Panic.indexOutOfRange }
    | _ :: _ =>
      let rep := drv.ft_read d bytesToRead
      { log := log1 ++
          [Event.call Proc.ft_read [Arg.val d, Arg.ptr, Arg.val bytesToRead, Arg.ptr]],
        out := if rep.r = 0 then Outcome.returned (intOfNat W rep.count, none)
               else Outcome.returned (intOfNat W rep.count, some rep.err) }

/-- Source `(*Device).Write`. -/
def Device.Write (W : Nat) (drv : Driver) (d : Device) (p : List Nat) : Run (Int × GoError) :=
  let bytesToWrite := uint32OfNat p.length
  match p with
  | [] => { log := [], out := Outcome.panicked Panic.indexOutOfRange }
  | _ :: _ =>
    let rep := drv.ft_write d p bytesToWrite
    { log := [Event.call Proc.ft_write [Arg.val d, Arg.ptr, Arg.val bytesToWrite, Arg.ptr]],
      out := if rep.r = 0 then Outcome.returned (intOfNat W rep.count, none)
             else Outcome.returned (intOfNat W rep.count, some rep.err) }

/-! ## Configuration -/

/-- Source `(*Device).SetBaudRate`: `uintptr(uint32(baud))`. -/
def Device.SetBaudRate (drv : Driver) (d : Device) (baud : Nat) : Run GoError :=
  simpleCall drv Proc.setBaudRate [d, uint32OfNat baud]

/-- Source `(*Device).SetChars`: each character is passed twice. -/
def Device.SetChars (drv : Driver) (d : Device) (event err : Nat) : Run GoError :=
  simpleCall drv Proc.setChars [d, event, event, err, err]

/-- Source `(*Device).SetBitMode`: mask `0x00`, then `byte(mode)`. -/
def Device.SetBitMode (drv : Driver) (d : Device) (mode : BitMode) : Run GoError :=
  simpleCall drv Proc.setBitMode [d, 0x00, byteOfInt mode]

/-- Source `(*Device).SetFlowControl`: `uint16(f)`, XON `0x11`, XOFF `0x13`. -/
def Device.SetFlowControl (drv : Driver) (d : Device) (f : FlowControl) : Run GoError :=
  simpleCall drv Proc.setFlowControl [d, uint16OfInt f, 0x11, 0x13]

/-- Source `(*Device).SetLatency`: `uintptr(byte(latency))`. -/
def Device.SetLatency (drv : Driver) (d : Device) (latency : Int) : Run GoError :=
  simpleCall drv Proc.setLatency [d, byteOfInt latency]

/-- Source `(*Device).SetTransferSize`: `uint32(..)` of both sizes. -/
def Device.SetTransferSize (drv : Driver) (d : Device) (read_size write_size : Int) :
    Run GoError :=
  simpleCall drv Proc.setTransferSize [d, uint32OfInt read_size, uint32OfInt write_size]

/-- Source `(*Device).SetLineProperty`: `byte(..)` of the three fields. -/
def Device.SetLineProperty (drv : Driver) (d : Device) (props : LineProperties) : Run GoError :=
  simpleCall drv Proc.setLineProperty
    [d, byteOfInt props.Bits, byteOfInt props.StopBits, byteOfInt props.Parity]

/-- Source `(*Device).SetTimeout`: `uint32(..)` of both timeouts. -/
def Device.SetTimeout (drv : Driver) (d : Device) (read_timeout write_timeout : Int) :
    Run GoError :=
  simpleCall drv Proc.setTimeout [d, uint32OfInt read_timeout, uint32OfInt write_timeout]

/-- Source `(*Device).Reset`: calls `resetDevice`. -/
def Device.Reset (drv : Driver) (d : Device) : Run GoError :=
  simpleCall drv Proc.resetDevice [d]

/-- Source `(*Device).Purge`: both buffer selectors, `0x01|0x02`. -/
def Device.Purge (drv : Driver) (d : Device) : Run GoError :=
  simpleCall drv Proc.ft_purge [d, 0x01 ||| 0x02]

/-! ## Observations on a run -/

/-- The byte counts the `ft_read` calls of a log asked for, in order. -/
def readRequests : List Event → List Nat
  | [] => []
  | Event.call Proc.ft_read [_, _, Arg.val n, _] :: rest => n :: readRequests rest
  | _ :: rest => readRequests rest

/-- The delays of a log, in order. -/
def delays : List Event → List Nat
  | [] => []
  | Event.sleep t :: rest => t :: delays rest
  | _ :: rest => delays rest

/-- An `int32` value. -/
def isInt32 (x : Int) : Prop := -2147483648 ≤ x ∧ x < 2147483648

/-- The event of the status query `Read` and `GetStatus` make on handle `d`. -/
def statusCall (d : Device) : Event :=
  Event.call Proc.ft_getStatus [Arg.val d, Arg.ptr, Arg.ptr, Arg.ptr]

/-- The event of a native read on handle `d` asking for `asked` bytes. -/
def readCall (d : Device) (asked : Nat) : Event :=
  Event.call Proc.ft_read [Arg.val d, Arg.ptr, Arg.val asked, Arg.ptr]

/-- The event of the detail query for index `i`. -/
def detailCall (i : Nat) : Event := Event.call Proc.getDeviceInfoDetail (detailArgs i)

/-- The detail query for index `i` reports status 0 and both string buffers
hold a 0x00 byte. -/
def detailOk (drv : Driver) (i : Nat) : Prop :=
  (drv.getDeviceInfoDetail i).r = 0 ∧
  0 ∈ fixedArray 16 (drv.getDeviceInfoDetail i).sn ∧
  0 ∈ fixedArray 64 (drv.getDeviceInfoDetail i).description

/-- The string a decode returned (empty when it did not return). -/
def decodedBytes : Outcome (List Nat) → List Nat
  | Outcome.returned s => s
  | Outcome.panicked _ => []

/-- The record iteration `i` of the loop builds from the reply for index `i`. -/
def recordOf (drv : Driver) (i : Nat) : DeviceInfo :=
  { index := i,
    flags := (drv.getDeviceInfoDetail i).flags,
    dtype := (drv.getDeviceInfoDetail i).dtype,
    id := (drv.getDeviceInfoDetail i).id,
    location := (drv.getDeviceInfoDetail i).location,
    SerialNumber := decodedBytes (bytesToString (fixedArray 16 (drv.getDeviceInfoDetail i).sn)),
    Description :=
      decodedBytes (bytesToString (fixedArray 64 (drv.getDeviceInfoDetail i).description)),
    handle := (drv.getDeviceInfoDetail i).handle }

/-- The slice after `todo` successful iterations starting at index `i`. -/
def fillFrom (drv : Driver) : Nat → Nat → List DeviceInfo → List DeviceInfo
  | 0, _, di => di
  | todo + 1, i, di => fillFrom drv todo (i + 1) (di.set i (recordOf drv i))

/-- The event of the count query. -/
def countCall : Event := Event.call Proc.createDeviceInfoList [Arg.ptr]

/-- Record `rec` is what the loop builds for index `i`: index `i`, the
flags, type, id, location and handle of the reply for index `i`, and the
decodes of its 16-byte and 64-byte buffers. -/
def isRecordFor (drv : Driver) (i : Nat) (rec : DeviceInfo) : Prop :=
  rec.index = i ∧
  rec.flags = (drv.getDeviceInfoDetail i).flags ∧
  rec.dtype = (drv.getDeviceInfoDetail i).dtype ∧
  rec.id = (drv.getDeviceInfoDetail i).id ∧
  rec.location = (drv.getDeviceInfoDetail i).location ∧
  rec.handle = (drv.getDeviceInfoDetail i).handle ∧
  bytesToString (fixedArray 16 (drv.getDeviceInfoDetail i).sn)
    = Outcome.returned rec.SerialNumber ∧
  bytesToString (fixedArray 64 (drv.getDeviceInfoDetail i).description)
    = Outcome.returned rec.Description

/-- The run makes exactly one native call, to `proc`, and returns a nil error
if and only if the status `r` of that call is 0. -/
def propagatesStatus (run : Run GoError) (proc : Proc) (r : Nat) : Prop :=
  (∃ args, run.log = [Event.call proc args]) ∧
  ∃ e, run.out = Outcome.returned e ∧ (e = none ↔ r = 0)

/-! ## Example drivers and buffers -/

/-- A driver whose every entry point succeeds and stores zeros. -/
def quietDriver : Driver :=
  { createDeviceInfoList := { r := 0, err := 0, n := 0 },
    getDeviceInfoDetail := fun _ =>
      { r := 0, err := 0, flags := 0, dtype := 0, id := 0, location := 0,
        sn := [], description := [], handle := 0 },
    ft_open := fun _ => { r := 0, err := 0, dev := 0 },
    ft_getStatus := fun _ => { r := 0, err := 0, rx_queue := 0, tx_queue := 0, events := 0 },
    ft_read := fun _ asked => { r := 0, err := 0, count := asked },
    ft_write := fun _ _ asked => { r := 0, err := 0, count := asked },
    simple := fun _ _ => { r := 0, err := 0 } }

/-- The quiet driver with a chosen reply to the status query. -/
def statusDriver (st : StatusReply) : Driver :=
  { quietDriver with ft_getStatus := fun _ => st }

/-- The 16-byte serial-number buffer holding `ABC123` followed by ten NULs. -/
def abc123Buffer : List Nat := [65, 66, 67, 49, 50, 51, 0, 0, 0, 0, 0, 0, 0, 0, 0, 0]

/-- A full 16-byte serial number without terminator (sixteen times `A`). -/
def fullSerial : List Nat := List.replicate 16 65

/-- A status query that reports -1 queued bytes (the 32-bit word 0xFFFFFFFF
read through the `int32` result variable) with status 0. -/
def negativeQueueDriver : Driver :=
  statusDriver { r := 0, err := 0, rx_queue := -1, tx_queue := 0, events := 0 }

/-- A status query that fails with status 1 and error 5, followed by a native
read that succeeds (status 0). -/
def failedStatusDriver : Driver :=
  statusDriver { r := 1, err := 5, rx_queue := 0, tx_queue := 0, events := 0 }

/-- Scenario C: the status query reports 3 queued bytes. -/
def threeQueuedDriver : Driver :=
  statusDriver { r := 0, err := 0, rx_queue := 3, tx_queue := 0, events := 0 }

/-- A 10-byte caller buffer. -/
def tenBytes : List Nat := List.replicate 10 0

/-- A 64-byte description buffer: `USB Serial` followed by NULs. -/
def usbSerialBuffer : List Nat :=
  [85, 83, 66, 32, 83, 101, 114, 105, 97, 108] ++ List.replicate 54 0

/-- Scenario A: two devices, both detail queries succeed. -/
def twoDeviceDriver : Driver :=
  { quietDriver with
    createDeviceInfoList := { r := 0, err := 0, n := 2 },
    getDeviceInfoDetail := fun i =>
      { r := 0, err := 0, flags := 2, dtype := 5, id := 67330049, location := 16 + i,
        sn := abc123Buffer, description := usbSerialBuffer, handle := 0 } }

/-- Two devices; the detail query for index 1 reports status 3 with error 9. -/
def secondDetailFailsDriver : Driver :=
  { quietDriver with
    createDeviceInfoList := { r := 0, err := 0, n := 2 },
    getDeviceInfoDetail := fun i =>
      { r := if i = 1 then 3 else 0, err := if i = 1 then 9 else 0,
        flags := 2, dtype := 5, id := 67330049, location := 16 + i,
        sn := abc123Buffer, description := usbSerialBuffer, handle := 0 } }

/-- A driver whose every entry point reports status 1 with error 31. -/
def failingDriver : Driver :=
  { createDeviceInfoList := { r := 1, err := 31, n := 0 },
    getDeviceInfoDetail := fun _ =>
      { r := 1, err := 31, flags := 0, dtype := 0, id := 0, location := 0,
        sn := [], description := [], handle := 0 },
    ft_open := fun _ => { r := 1, err := 31, dev := 0 },
    ft_getStatus := fun _ => { r := 1, err := 31, rx_queue := 0, tx_queue := 0, events := 0 },
    ft_read := fun _ _ => { r := 1, err := 31, count := 0 },
    ft_write := fun _ _ _ => { r := 1, err := 31, count := 0 },
    simple := fun _ _ => { r := 1, err := 31 } }

/-- A driver that accepts a write of two bytes but reports one byte written. -/
def shortWriteDriver : Driver :=
  { quietDriver with ft_write := fun _ _ _ => { r := 0, err := 0, count := 1 } }

/-- A driver whose only device returns a full 16-byte serial number, without
terminator, from a successful detail query. -/
def fullSerialDriver : Driver :=
  { quietDriver with
    createDeviceInfoList := { r := 0, err := 0, n := 1 },
    getDeviceInfoDetail := fun _ =>
      { r := 0, err := 0, flags := 2, dtype := 5, id := 67330049, location := 16,
        sn := fullSerial, description := usbSerialBuffer, handle := 0 } }

/-- A status query that reports 5 queued bytes. -/
def fiveQueuedDriver : Driver :=
  statusDriver { r := 0, err := 0, rx_queue := 5, tx_queue := 0, events := 0 }

/-! ## Facts about `bytesToString` -/

theorem startsWith_nul (x : Nat) (xs : List Nat) : startsWith (x :: xs) [0] = (x == 0) := by
  cases xs <;> simp [startsWith]

theorem bytesIndexFrom_nul_split (pre rest : List Nat) (i : Nat) (hpre : 0 ∉ pre) :
    bytesIndexFrom [0] (pre ++ 0 :: rest) i = ((i + pre.length : Nat) : Int) := by
  induction pre generalizing i with
  | nil => simp [bytesIndexFrom, startsWith_nul]
  | cons x xs ih =>
    have hx : x ≠ 0 := fun h => hpre (by simp [h])
    have hxs : 0 ∉ xs := fun h => hpre (by simp [h])
    have hstep : bytesIndexFrom [0] (x :: (xs ++ 0 :: rest)) i
        = bytesIndexFrom [0] (xs ++ 0 :: rest) (i + 1) := by
      simp [bytesIndexFrom, startsWith_nul, hx]
    rw [List.cons_append, hstep, ih (i + 1) hxs]
    simp only [List.length_cons]
    congr 1
    omega

theorem bytesIndexFrom_nul_absent (b : List Nat) (i : Nat) (hb : 0 ∉ b) :
    bytesIndexFrom [0] b i = -1 := by
  induction b generalizing i with
  | nil => simp [bytesIndexFrom, startsWith]
  | cons x xs ih =>
    have hx : x ≠ 0 := fun h => hb (by simp [h])
    have hxs : 0 ∉ xs := fun h => hb (by simp [h])
    simp [bytesIndexFrom, startsWith_nul, hx, ih (i + 1) hxs]

theorem split_at_first_nul (b : List Nat) (h : 0 ∈ b) :
    ∃ pre rest, b = pre ++ 0 :: rest ∧ 0 ∉ pre := by
  induction b with
  | nil => simp at h
  | cons x xs ih =>
    by_cases hx : x = 0
    · exact ⟨[], xs, by simp [hx], by simp⟩
    · have hmem : 0 ∈ xs := by
        rcases List.mem_cons.mp h with h0 | h0
        · exact absurd h0.symm hx
        · exact h0
      obtain ⟨pre, rest, hsplit, hpre⟩ := ih hmem
      refine ⟨x :: pre, rest, by simp [hsplit], ?_⟩
      intro hmem2
      rcases List.mem_cons.mp hmem2 with h0 | h0
      · exact hx h0.symm
      · exact hpre h0

theorem bytesToString_split (pre rest : List Nat) (hpre : 0 ∉ pre) :
    bytesToString (pre ++ 0 :: rest) = Outcome.returned pre := by
  have hidx : bytesIndex (pre ++ 0 :: rest) [0] = (pre.length : Int) := by
    unfold bytesIndex
    rw [bytesIndexFrom_nul_split pre rest 0 hpre]
    simp
  unfold bytesToString sliceTo
  simp only [hidx]
  have hle : (0 : Int) ≤ (pre.length : Int) ∧
      (pre.length : Int) ≤ ((pre ++ 0 :: rest).length : Int) := by
    constructor
    · exact Int.ofNat_nonneg _
    · simp only [List.length_append, List.length_cons]
      omega
  rw [if_pos hle]
  simp

theorem bytesToString_no_nul (b : List Nat) (hb : 0 ∉ b) :
    bytesToString b = Outcome.panicked Panic.sliceBoundsOutOfRange := by
  unfold bytesToString sliceTo bytesIndex
  rw [bytesIndexFrom_nul_absent b 0 hb]
  simp

/-- C4: for every byte buffer that contains a 0x00 byte, `bytesToString`
returns exactly the bytes before the first 0x00: the buffer is the result,
then a 0x00, then the discarded rest; the result holds no 0x00, its length is
the index `bytes.Index` found (the position of the first 0x00), and it is the
buffer cut at that index, so nothing at or after the index is in it. -/
theorem bytesToString_stops_at_first_nul (b : List Nat) (h : 0 ∈ b) :
    ∃ s rest, bytesToString b = Outcome.returned s ∧ b = s ++ 0 :: rest ∧ 0 ∉ s ∧
      (s.length : Int) = bytesIndex b [0] ∧ s.length = List.indexOf 0 b ∧
      s = b.take (List.indexOf 0 b) := by
  obtain ⟨pre, rest, hsplit, hpre⟩ := split_at_first_nul b h
  have hidx : List.indexOf 0 (pre ++ 0 :: rest) = pre.length := by
    rw [List.indexOf_append_of_not_mem hpre]
    simp
  refine ⟨pre, rest, ?_, hsplit, hpre, ?_, ?_, ?_⟩
  · rw [hsplit]; exact bytesToString_split pre rest hpre
  · rw [hsplit]
    unfold bytesIndex
    rw [bytesIndexFrom_nul_split pre rest 0 hpre]
    simp
  · rw [hsplit, hidx]
  · rw [hsplit, hidx]
    simp

/-- C4 at the buffer `ABC123` plus ten NULs: the decode is `ABC123`. -/
theorem bytesToString_stops_at_first_nul_witness :
    0 ∈ abc123Buffer ∧
    bytesToString abc123Buffer = Outcome.returned [65, 66, 67, 49, 50, 51] ∧
    ∃ s rest, bytesToString abc123Buffer = Outcome.returned s ∧
      abc123Buffer = s ++ 0 :: rest ∧ 0 ∉ s ∧
      (s.length : Int) = bytesIndex abc123Buffer [0] ∧
      s.length = List.indexOf 0 abc123Buffer ∧
      s = abc123Buffer.take (List.indexOf 0 abc123Buffer) :=
  ⟨by decide, by decide, bytesToString_stops_at_first_nul abc123Buffer (by decide)⟩

/-- C5: on the full 16-byte serial number without a 0x00 the decode neither
returns a string nor an error value: `bytes.Index` yields -1 and the slice
expression `b[:-1]` stops the program with a slice-bounds failure, and so does
the `GetDeviceList` whose detail query stored that serial number. -/
theorem bytesToString_full_serial_panics :
    0 ∉ fullSerial ∧ fullSerial.length = 16 ∧ bytesIndex fullSerial [0] = -1 ∧
    bytesToString fullSerial = Outcome.panicked Panic.sliceBoundsOutOfRange ∧
    (fullSerialDriver.getDeviceInfoDetail 0).r = 0 ∧
    (GetDeviceList fullSerialDriver).out = Outcome.panicked Panic.sliceBoundsOutOfRange := by
  decide

/-! ## Facts about `Read` -/

/-- `Read` on a non-empty buffer, written out: the status query, the delay when
the request is clamped, one native read, and the count and error of that read. -/
theorem read_cons (W : Nat) (drv : Driver) (d : Device) (x : Nat) (xs : List Nat) :
    Device.Read W drv d (x :: xs) =
      { log := (if uint32OfNat (xs.length + 1) > uint32OfInt (drv.ft_getStatus d).rx_queue
                then [statusCall d, Event.sleep readDelay] else [statusCall d]) ++
          [readCall d
            (if uint32OfNat (xs.length + 1) > uint32OfInt (drv.ft_getStatus d).rx_queue
             then uint32OfInt (drv.ft_getStatus d).rx_queue else uint32OfNat (xs.length + 1))],
        out :=
          if (drv.ft_read d
            (if uint32OfNat (xs.length + 1) > uint32OfInt (drv.ft_getStatus d).rx_queue
             then uint32OfInt (drv.ft_getStatus d).rx_queue
             else uint32OfNat (xs.length + 1))).r = 0
          then Outcome.returned (intOfNat W (drv.ft_read d
            (if uint32OfNat (xs.length + 1) > uint32OfInt (drv.ft_getStatus d).rx_queue
             then uint32OfInt (drv.ft_getStatus d).rx_queue
             else uint32OfNat (xs.length + 1))).count, none)
          else Outcome.returned (intOfNat W (drv.ft_read d
            (if uint32OfNat (xs.length + 1) > uint32OfInt (drv.ft_getStatus d).rx_queue
             then uint32OfInt (drv.ft_getStatus d).rx_queue
             else uint32OfNat (xs.length + 1))).count,
            some (drv.ft_read d
              (if uint32OfNat (xs.length + 1) > uint32OfInt (drv.ft_getStatus d).rx_queue
               then uint32OfInt (drv.ft_getStatus d).rx_queue
               else uint32OfNat (xs.length + 1))).err) } := by
  unfold Device.Read Device.GetStatus statusCall readCall
  by_cases hr : (drv.ft_getStatus d).r = 0 <;>
    by_cases hc : uint32OfNat (xs.length + 1) > uint32OfInt (drv.ft_getStatus d).rx_queue <;>
    simp [hr, hc]

/-- The value `GetStatus` returns as `rx_queue` is the one the native layer stored. -/
theorem getStatus_rx (drv : Driver) (d : Device) (rx tx ev : Int) (e : GoError)
    (h : (Device.GetStatus drv d).out = Outcome.returned (rx, tx, ev, e)) :
    (drv.ft_getStatus d).rx_queue = rx := by
  unfold Device.GetStatus at h
  by_cases hr : (drv.ft_getStatus d).r = 0
  · simp [hr] at h; exact h.1
  · simp [hr] at h; exact h.1

theorem uint32OfInt_of_nonneg (x : Int) (h0 : 0 ≤ x) (h1 : x < 4294967296) :
    uint32OfInt x = x.toNat := by
  unfold uint32OfInt
  congr 1
  omega

theorem uint32OfNat_le (n : Nat) : uint32OfNat n ≤ n := by
  unfold uint32OfNat
  exact Nat.mod_le _ _

theorem intOfNat_small (W n : Nat) (hW : W = 32 ∨ W = 64) (hn : n < 2 ^ (W - 1)) :
    intOfNat W n = (n : Int) := by
  unfold intOfNat
  rcases hW with h | h
  · subst h
    have hn1 : n < 2147483648 := by simpa using hn
    have hmod : n % 2 ^ 32 = n := Nat.mod_eq_of_lt (by omega)
    rw [hmod, if_pos hn]
  · subst h
    have hn1 : n < 9223372036854775808 := by simpa using hn
    have hmod : n % 2 ^ 64 = n := Nat.mod_eq_of_lt (by omega)
    rw [hmod, if_pos hn]

/-- C1, as the source has it: for a non-empty buffer shorter than 2^32 bytes
and a queue count `rx` reported by the status query with `0 <= rx < len(p)`,
`Read` makes the status query, one 20 ms delay, then one native read asking for
exactly `rx` bytes; when `rx >= len(p)` it makes the status query and one
native read asking for exactly `len(p)` bytes, with no delay. -/
theorem read_clamp_nonneg (W : Nat) (drv : Driver) (d : Device) (p : List Nat)
    (rx tx ev : Int) (e : GoError) (hp : p ≠ [])
    (hst : (Device.GetStatus drv d).out = Outcome.returned (rx, tx, ev, e))
    (hrx : isInt32 rx) :
    (0 ≤ rx → rx < (p.length : Int) → p.length < 4294967296 →
      (Device.Read W drv d p).log = [statusCall d, Event.sleep readDelay, readCall d rx.toNat]
      ∧ readDelay = 20000000) ∧
    ((p.length : Int) ≤ rx →
      (Device.Read W drv d p).log = [statusCall d, readCall d p.length]) := by
  have hq := getStatus_rx drv d rx tx ev e hst
  obtain ⟨x, xs, rfl⟩ := List.exists_cons_of_ne_nil hp
  rw [read_cons, hq]
  simp only [List.length_cons]
  constructor
  · intro h0 h1 h2
    have hu : uint32OfInt rx = rx.toNat := uint32OfInt_of_nonneg rx h0 (by omega)
    have hb : uint32OfNat (xs.length + 1) = xs.length + 1 := by
      unfold uint32OfNat; exact Nat.mod_eq_of_lt h2
    have hc : uint32OfNat (xs.length + 1) > uint32OfInt rx := by
      rw [hu, hb]; omega
    rw [if_pos hc, if_pos hc, hu]
    exact ⟨rfl, rfl⟩
  · intro h1
    have h0 : 0 ≤ rx := by omega
    have hu : uint32OfInt rx = rx.toNat := uint32OfInt_of_nonneg rx h0 (by
      have := hrx.2; omega)
    have hlt : xs.length + 1 < 4294967296 := by
      have := hrx.2; omega
    have hb : uint32OfNat (xs.length + 1) = xs.length + 1 := by
      unfold uint32OfNat; exact Nat.mod_eq_of_lt hlt
    have hc : ¬ uint32OfNat (xs.length + 1) > uint32OfInt rx := by
      rw [hu, hb]; omega
    rw [if_neg hc, if_neg hc, hb]
    rfl

/-- C1 at scenario C (3 queued bytes, a 10-byte buffer: status query, delay,
read of 3 bytes, returned count 3) and at 3 queued bytes with a 1-byte buffer
(read of 1 byte, no delay). -/
theorem read_clamp_nonneg_witness :
    (Device.Read 64 threeQueuedDriver 7 tenBytes).out = Outcome.returned (3, none) ∧
    ((Device.Read 64 threeQueuedDriver 7 tenBytes).log
        = [statusCall 7, Event.sleep readDelay, readCall 7 (3 : Int).toNat]
      ∧ readDelay = 20000000) ∧
    (Device.Read 64 threeQueuedDriver 7 [0]).log
        = [statusCall 7, readCall 7 ([0] : List Nat).length] :=
  ⟨by decide,
   (read_clamp_nonneg 64 threeQueuedDriver 7 tenBytes 3 0 0 none (by decide) (by decide)
      ⟨by decide, by decide⟩).1 (by decide) (by decide) (by decide),
   (read_clamp_nonneg 64 threeQueuedDriver 7 [0] 3 0 0 none (by decide) (by decide)
      ⟨by decide, by decide⟩).2 (by decide)⟩

/-- C1 fails as stated: the status query reports the `int32` value -1, which
is below the length 1 of the buffer, yet `Read` asks the native read for 1
byte, not for -1 bytes, and performs no delay. -/
theorem read_negative_queue_not_clamped :
    (Device.GetStatus negativeQueueDriver 7).out = Outcome.returned (-1, 0, 0, none) ∧
    (-1 : Int) < (([0] : List Nat).length : Int) ∧
    (Device.Read 64 negativeQueueDriver 7 [0]).log = [statusCall 7, readCall 7 1] ∧
    readRequests (Device.Read 64 negativeQueueDriver 7 [0]).log = [1] ∧
    delays (Device.Read 64 negativeQueueDriver 7 [0]).log = [] := by
  decide

/-- A buffer of 2^32 bytes on a 64-bit build, 5 bytes queued: `uint32(len(p))`
is 0, so `Read` asks the native read for 0 bytes and performs no delay. -/
theorem read_truncates_huge_length (x : Nat) (xs : List Nat)
    (hlen : xs.length + 1 = 4294967296) :
    (Device.Read 64 fiveQueuedDriver 7 (x :: xs)).log = [statusCall 7, readCall 7 0] := by
  rw [read_cons, hlen]
  simp [uint32OfNat, uint32OfInt, fiveQueuedDriver, statusDriver]

/-- C2: for a non-empty buffer (a Go slice: its length fits `int`) and any
reply of the status query, `Read` makes exactly one native read and asks it
for at most `len(p)` bytes; if the native read never reports more bytes than
it was asked for, `Read` returns a count `n` with `0 <= n <= len(p)`. -/
theorem read_count_bound (W : Nat) (drv : Driver) (d : Device) (p : List Nat)
    (hW : W = 32 ∨ W = 64) (hp : p ≠ []) (hlen : p.length < 2 ^ (W - 1))
    (hnative : ∀ asked, (drv.ft_read d asked).count ≤ asked) :
    (∃ asked, readRequests (Device.Read W drv d p).log = [asked] ∧ asked ≤ p.length) ∧
    ∃ n e, (Device.Read W drv d p).out = Outcome.returned (n, e) ∧
      0 ≤ n ∧ n ≤ (p.length : Int) := by
  obtain ⟨x, xs, rfl⟩ := List.exists_cons_of_ne_nil hp
  rw [read_cons]
  simp only [List.length_cons] at hlen ⊢
  generalize hrxq : (drv.ft_getStatus d).rx_queue = rx
  have hB := uint32OfNat_le (xs.length + 1)
  generalize hask : (if uint32OfNat (xs.length + 1) > uint32OfInt rx
      then uint32OfInt rx else uint32OfNat (xs.length + 1)) = asked
  have hasked : asked ≤ xs.length + 1 := by
    rw [← hask]
    split <;> omega
  have hcount := hnative asked
  have hsmall : (drv.ft_read d asked).count < 2 ^ (W - 1) := by omega
  have hint := intOfNat_small W _ hW hsmall
  constructor
  · refine ⟨asked, ?_, hasked⟩
    by_cases hc : uint32OfNat (xs.length + 1) > uint32OfInt rx <;>
      simp [hc, readRequests, statusCall, readCall]
  · by_cases hr : (drv.ft_read d asked).r = 0
    · refine ⟨_, none, by rw [if_pos hr], ?_, ?_⟩ <;> rw [hint] <;> omega
    · refine ⟨_, some (drv.ft_read d asked).err, by rw [if_neg hr], ?_, ?_⟩ <;>
        rw [hint] <;> omega

/-- C2 at a 10-byte buffer, with the count -1 reported by the status query. -/
theorem read_count_bound_witness :
    (∃ asked, readRequests (Device.Read 64 negativeQueueDriver 7 tenBytes).log = [asked] ∧
      asked ≤ tenBytes.length) ∧
    ∃ n e, (Device.Read 64 negativeQueueDriver 7 tenBytes).out = Outcome.returned (n, e) ∧
      0 ≤ n ∧ n ≤ (tenBytes.length : Int) :=
  read_count_bound 64 negativeQueueDriver 7 tenBytes (Or.inr rfl) (by decide) (by decide)
    (fun _ => Nat.le_refl _)

/-- C3: the status query inside `Read` reports status 1 (and `GetStatus` on the
same driver returns the error 5), the native read that follows reports status
0, and `Read` returns a nil error: the failure of the status query is lost. -/
theorem read_masks_failed_status :
    (failedStatusDriver.ft_getStatus 7).r = 1 ∧
    (Device.GetStatus failedStatusDriver 7).out = Outcome.returned (0, 0, 0, some 5) ∧
    (Device.Read 64 failedStatusDriver 7 [0]).log
      = [statusCall 7, Event.sleep readDelay, readCall 7 0] ∧
    (Device.Read 64 failedStatusDriver 7 [0]).out = Outcome.returned (0, none) := by
  decide

/-- C10: on an empty buffer `Read` makes the status query and then stops with
an index-out-of-range failure at `&p[0]`; it returns no count and makes no
native read. -/
theorem read_empty_buffer_panics (W : Nat) (drv : Driver) (d : Device) :
    (Device.Read W drv d []).out = Outcome.panicked Panic.indexOutOfRange ∧
    (Device.Read W drv d []).log = [statusCall d] := by
  unfold Device.Read Device.GetStatus statusCall
  by_cases hr : (drv.ft_getStatus d).r = 0 <;>
    simp [hr, uint32OfNat]

/-! ## Facts about `GetDeviceList` -/

theorem bytesToString_returns (b : List Nat) (h : 0 ∈ b) :
    bytesToString b = Outcome.returned (decodedBytes (bytesToString b)) := by
  obtain ⟨pre, rest, hsplit, hpre⟩ := split_at_first_nul b h
  rw [hsplit, bytesToString_split pre rest hpre]
  rfl

theorem detailLoop_step (drv : Driver) (todo i : Nat) (di : List DeviceInfo)
    (log : List Event) (hok : detailOk drv i) :
    detailLoop drv (todo + 1) i di log
      = detailLoop drv todo (i + 1) (di.set i (recordOf drv i)) (log ++ [detailCall i]) := by
  obtain ⟨hr, hsn, hdesc⟩ := hok
  have h1 := bytesToString_returns _ hsn
  have h2 := bytesToString_returns _ hdesc
  rw [detailLoop]
  simp only [hr, ne_eq, not_true_eq_false, if_false]
  rw [h1, h2]
  rfl

theorem detailLoop_prefix (drv : Driver) (a rest : Nat) :
    ∀ (i : Nat) (di : List DeviceInfo) (log : List Event),
      (∀ j, i ≤ j → j < i + a → detailOk drv j) →
      detailLoop drv (a + rest) i di log
        = detailLoop drv rest (i + a) (fillFrom drv a i di)
            (log ++ (List.range' i a).map detailCall) := by
  induction a with
  | zero =>
    intro i di log _
    simp [fillFrom]
  | succ a ih =>
    intro i di log hok
    have hi : detailOk drv i := hok i (Nat.le_refl _) (by omega)
    have hrest : ∀ j, i + 1 ≤ j → j < i + 1 + a → detailOk drv j :=
      fun j h1 h2 => hok j (by omega) (by omega)
    have hsum : a + 1 + rest = (a + rest) + 1 := by omega
    rw [hsum, detailLoop_step drv (a + rest) i di log hi, ih (i + 1) _ _ hrest]
    have hidx : i + 1 + a = i + (a + 1) := by omega
    rw [hidx]
    simp [fillFrom, List.range'_succ, detailCall]

theorem fillFrom_length (drv : Driver) (a : Nat) :
    ∀ (i : Nat) (di : List DeviceInfo), (fillFrom drv a i di).length = di.length := by
  induction a with
  | zero => intro i di; rfl
  | succ a ih => intro i di; simp [fillFrom, ih]

theorem fillFrom_get (drv : Driver) (a : Nat) :
    ∀ (i : Nat) (di : List DeviceInfo) (j : Nat), j < di.length →
      (fillFrom drv a i di)[j]? =
        if i ≤ j ∧ j < i + a then some (recordOf drv j) else di[j]? := by
  induction a with
  | zero =>
    intro i di j _
    have hno : ¬ (i ≤ j ∧ j < i + 0) := by omega
    rw [if_neg hno]
    rfl
  | succ a ih =>
    intro i di j hj
    have hlen : j < (di.set i (recordOf drv i)).length := by simpa using hj
    rw [fillFrom, ih (i + 1) _ j hlen]
    by_cases h1 : i + 1 ≤ j ∧ j < i + 1 + a
    · have h2 : i ≤ j ∧ j < i + (a + 1) := by omega
      rw [if_pos h1, if_pos h2]
    · rw [if_neg h1]
      by_cases h3 : i = j
      · subst h3
        have h2 : i ≤ i ∧ i < i + (a + 1) := by omega
        rw [if_pos h2]
        simp [List.getElem?_set, hj]
      · have h2 : ¬ (i ≤ j ∧ j < i + (a + 1)) := by omega
        rw [if_neg h2]
        simp [List.getElem?_set, h3]

theorem recordOf_isRecordFor (drv : Driver) (i : Nat) (hok : detailOk drv i) :
    isRecordFor drv i (recordOf drv i) :=
  ⟨rfl, rfl, rfl, rfl, rfl, rfl, bytesToString_returns _ hok.2.1,
    bytesToString_returns _ hok.2.2⟩

/-- C7: when the count query reports `n` with status 0 and every detail query
below `n` reports status 0 with a 0x00 in both string buffers, `GetDeviceList`
returns a nil error and a list of exactly `n` records; the record at position
`i` has index `i`, the flags, type, id, location and handle of the reply for
index `i`, and the decodes of that reply's 16-byte and 64-byte buffers; the
native calls are the count query, then the detail queries for 0, 1, .., n-1. -/
theorem getDeviceList_in_order (drv : Driver)
    (hcount : drv.createDeviceInfoList.r = 0)
    (hok : ∀ i, i < drv.createDeviceInfoList.n → detailOk drv i) :
    ∃ di, (GetDeviceList drv).out = Outcome.returned (di, none) ∧
      di.length = drv.createDeviceInfoList.n ∧
      (∀ i, i < drv.createDeviceInfoList.n →
        ∃ rec, di[i]? = some rec ∧ isRecordFor drv i rec) ∧
      (GetDeviceList drv).log
        = countCall :: (List.range drv.createDeviceInfoList.n).map detailCall := by
  have hloop := detailLoop_prefix drv drv.createDeviceInfoList.n 0 0
    (List.replicate drv.createDeviceInfoList.n DeviceInfo.zero) [countCall]
    (fun j _ h2 => hok j (by omega))
  have hrun : GetDeviceList drv
      = { log := [countCall] ++ (List.range' 0 drv.createDeviceInfoList.n).map detailCall,
          out := Outcome.returned
            (fillFrom drv drv.createDeviceInfoList.n 0
              (List.replicate drv.createDeviceInfoList.n DeviceInfo.zero), none) } := by
    unfold GetDeviceList
    simp only [hcount, ne_eq, not_true_eq_false, if_false]
    rw [Nat.add_zero] at hloop
    rw [show [Event.call Proc.createDeviceInfoList [Arg.ptr]] = [countCall] from rfl, hloop]
    simp [detailLoop]
  refine ⟨_, by rw [hrun], ?_, ?_, ?_⟩
  · simp [fillFrom_length]
  · intro i hi
    refine ⟨recordOf drv i, ?_, recordOf_isRecordFor drv i (hok i hi)⟩
    rw [fillFrom_get drv _ 0 _ i (by simpa using hi)]
    simp [hi]
  · rw [hrun]
    simp [List.range_eq_range']

/-- C7 at scenario A: two devices with the serial buffer `ABC123` plus NULs. -/
theorem getDeviceList_in_order_witness :
    (GetDeviceList twoDeviceDriver).out = Outcome.returned
      ([{ index := 0, flags := 2, dtype := 5, id := 67330049, location := 16,
          SerialNumber := [65, 66, 67, 49, 50, 51],
          Description := [85, 83, 66, 32, 83, 101, 114, 105, 97, 108], handle := 0 },
        { index := 1, flags := 2, dtype := 5, id := 67330049, location := 17,
          SerialNumber := [65, 66, 67, 49, 50, 51],
          Description := [85, 83, 66, 32, 83, 101, 114, 105, 97, 108], handle := 0 }],
       none) ∧
    ∃ di, (GetDeviceList twoDeviceDriver).out = Outcome.returned (di, none) ∧
      di.length = twoDeviceDriver.createDeviceInfoList.n ∧
      (∀ i, i < twoDeviceDriver.createDeviceInfoList.n →
        ∃ rec, di[i]? = some rec ∧ isRecordFor twoDeviceDriver i rec) ∧
      (GetDeviceList twoDeviceDriver).log
        = countCall :: (List.range twoDeviceDriver.createDeviceInfoList.n).map detailCall :=
  ⟨by decide,
   getDeviceList_in_order twoDeviceDriver rfl
    (fun _ _ => ⟨rfl, (by decide : 0 ∈ fixedArray 16 abc123Buffer),
      (by decide : 0 ∈ fixedArray 64 usbSerialBuffer)⟩)⟩

theorem getDeviceList_fails_at (drv : Driver) (k : Nat)
    (hcount : drv.createDeviceInfoList.r = 0) (hk : k < drv.createDeviceInfoList.n)
    (hok : ∀ i, i < k → detailOk drv i) (hfail : (drv.getDeviceInfoDetail k).r ≠ 0) :
    GetDeviceList drv
      = { log := [countCall] ++ ((List.range' 0 k).map detailCall ++ [detailCall k]),
          out := Outcome.returned
            (fillFrom drv k 0 (List.replicate drv.createDeviceInfoList.n DeviceInfo.zero),
             some (drv.getDeviceInfoDetail k).err) } := by
  obtain ⟨b, hb⟩ : ∃ b, drv.createDeviceInfoList.n = k + (b + 1) :=
    ⟨drv.createDeviceInfoList.n - k - 1, by omega⟩
  have hloop := detailLoop_prefix drv k (b + 1) 0
    (List.replicate drv.createDeviceInfoList.n DeviceInfo.zero) [countCall]
    (fun j _ h2 => hok j (by omega))
  unfold GetDeviceList
  simp only [hcount, ne_eq, not_true_eq_false, if_false]
  rw [show [Event.call Proc.createDeviceInfoList [Arg.ptr]] = [countCall] from rfl]
  rw [show detailLoop drv drv.createDeviceInfoList.n 0
        (List.replicate drv.createDeviceInfoList.n DeviceInfo.zero) [countCall]
      = detailLoop drv (k + (b + 1)) 0
        (List.replicate drv.createDeviceInfoList.n DeviceInfo.zero) [countCall] from by rw [hb]]
  rw [hloop, Nat.zero_add, detailLoop]
  simp [hfail, detailCall]

/-- C6, as the source has it: when the count query reports a non-zero status,
`GetDeviceList` returns its error with a nil list; when the count query
succeeds with `n`, the detail queries below `k < n` succeed with terminated
buffers and the detail query for `k` reports a non-zero status, it returns the
error of that query together with the `n`-element list whose first `k` entries
are the decoded records and whose entries from `k` on are zero values, after
the count query and the detail queries for 0, .., k. -/
theorem getDeviceList_on_failure (drv : Driver) :
    (drv.createDeviceInfoList.r ≠ 0 →
      (GetDeviceList drv).out = Outcome.returned ([], some drv.createDeviceInfoList.err) ∧
      (GetDeviceList drv).log = [countCall]) ∧
    (∀ k, drv.createDeviceInfoList.r = 0 → k < drv.createDeviceInfoList.n →
      (∀ i, i < k → detailOk drv i) → (drv.getDeviceInfoDetail k).r ≠ 0 →
      ∃ di, (GetDeviceList drv).out
          = Outcome.returned (di, some (drv.getDeviceInfoDetail k).err) ∧
        di.length = drv.createDeviceInfoList.n ∧
        (∀ i, i < k → ∃ rec, di[i]? = some rec ∧ isRecordFor drv i rec) ∧
        (∀ i, k ≤ i → i < drv.createDeviceInfoList.n → di[i]? = some DeviceInfo.zero) ∧
        (GetDeviceList drv).log = countCall :: (List.range (k + 1)).map detailCall) := by
  constructor
  · intro hr
    unfold GetDeviceList countCall
    simp [hr]
  · intro k hcount hk hok hfail
    have hrun := getDeviceList_fails_at drv k hcount hk hok hfail
    refine ⟨_, by rw [hrun], ?_, ?_, ?_, ?_⟩
    · simp [fillFrom_length]
    · intro i hi
      refine ⟨recordOf drv i, ?_, recordOf_isRecordFor drv i (hok i hi)⟩
      rw [fillFrom_get drv _ 0 _ i (by simp; omega)]
      simp [hi]
    · intro i h1 h2
      rw [fillFrom_get drv _ 0 _ i (by simpa using h2)]
      have hno : ¬ (0 ≤ i ∧ i < 0 + k) := by omega
      rw [if_neg hno]
      simp [h2]
    · rw [hrun]
      simp [List.range_eq_range', List.range'_concat]

/-- C6 at two devices whose second detail query fails: the error 9 comes with
a two-element list holding the decoded first record and a zero value. -/
theorem getDeviceList_on_failure_witness :
    ∃ di, (GetDeviceList secondDetailFailsDriver).out
        = Outcome.returned (di, some (secondDetailFailsDriver.getDeviceInfoDetail 1).err) ∧
      di.length = secondDetailFailsDriver.createDeviceInfoList.n ∧
      (∀ i, i < 1 → ∃ rec, di[i]? = some rec ∧ isRecordFor secondDetailFailsDriver i rec) ∧
      (∀ i, 1 ≤ i → i < secondDetailFailsDriver.createDeviceInfoList.n →
        di[i]? = some DeviceInfo.zero) ∧
      (GetDeviceList secondDetailFailsDriver).log
        = countCall :: (List.range (1 + 1)).map detailCall :=
  (getDeviceList_on_failure secondDetailFailsDriver).2 1 rfl (by decide)
    (fun i hi => by
      have h0 : i = 0 := by omega
      subst h0
      exact ⟨rfl, (by decide : 0 ∈ fixedArray 16 abc123Buffer),
        (by decide : 0 ∈ fixedArray 64 usbSerialBuffer)⟩)
    (by decide)

/-- C6 fails as stated: the detail query for index 1 of 2 reports status 3,
and `GetDeviceList` returns the error 9 together with a list of two entries,
the decoded record for index 0 and a zero-valued record, not an empty list. -/
theorem getDeviceList_returns_records_with_error :
    (secondDetailFailsDriver.createDeviceInfoList.r = 0 ∧
      secondDetailFailsDriver.createDeviceInfoList.n = 2 ∧
      (secondDetailFailsDriver.getDeviceInfoDetail 1).r = 3) ∧
    (GetDeviceList secondDetailFailsDriver).out = Outcome.returned
      ([{ index := 0, flags := 2, dtype := 5, id := 67330049, location := 16,
          SerialNumber := [65, 66, 67, 49, 50, 51],
          Description := [85, 83, 66, 32, 83, 101, 114, 105, 97, 108], handle := 0 },
        DeviceInfo.zero],
       some 9) := by
  decide

/-! ## Facts about the single-call operations -/

theorem simpleCall_propagates (drv : Driver) (proc : Proc) (args : List Nat) :
    propagatesStatus (simpleCall drv proc args) proc (drv.simple proc args).r := by
  unfold propagatesStatus simpleCall
  refine ⟨⟨_, rfl⟩, ?_⟩
  by_cases hr : (drv.simple proc args).r = 0
  · exact ⟨none, by simp [hr], by simp [hr]⟩
  · exact ⟨some (drv.simple proc args).err, by simp [hr], by simp [hr]⟩

/-- C8, as the source has it: the value handed to the native latency call is
the low byte of the caller's value, `latency mod 256`; it equals the caller's
value exactly when the latency is in 0..255. -/
theorem setLatency_passes_low_byte (drv : Driver) (d : Device) (latency : Int) :
    ∃ v : Nat, (Device.SetLatency drv d latency).log
        = [Event.call Proc.setLatency [Arg.val d, Arg.val v]] ∧
      (v : Int) = latency % 256 ∧
      ((v : Int) = latency ↔ (0 ≤ latency ∧ latency ≤ 255)) := by
  refine ⟨byteOfInt latency, rfl, ?_, ?_⟩
  · unfold byteOfInt; omega
  · unfold byteOfInt; omega

/-- C8 fails as stated: the latencies 258 and -254, both outside 2..255, are
handed to the native latency call as 2, a value inside 2..255. -/
theorem setLatency_wraps_into_range :
    (Device.SetLatency quietDriver 7 258).log
      = [Event.call Proc.setLatency [Arg.val 7, Arg.val 2]] ∧
    (Device.SetLatency quietDriver 7 (-254)).log
      = [Event.call Proc.setLatency [Arg.val 7, Arg.val 2]] ∧
    ¬ ((2 : Int) ≤ 258 ∧ (258 : Int) ≤ 255) ∧ ¬ ((2 : Int) ≤ -254 ∧ (-254 : Int) ≤ 255) ∧
    ((2 : Nat) ≤ 2 ∧ (2 : Nat) ≤ 255) := by
  decide

/-- C9: each of Open, Close, GetStatus, Write (non-empty buffer), Reset, Purge,
SetBaudRate, SetChars, SetBitMode, SetFlowControl, SetLatency, SetTransferSize,
SetLineProperty and SetTimeout makes exactly one native call and returns a nil
error if and only if that call's status is 0.  Open returns no Device on a
non-zero status and, on status 0, the handle the native open call stored for
the index it was given, which is the record's index; Write returns the count
the native layer stored, converted to `int`. -/
theorem single_call_status_propagation (W : Nat) (drv : Driver) (d : Device) :
    (∀ di : DeviceInfo,
      (Open W drv di).log
        = [Event.call Proc.ft_open [Arg.val (uintptrOfNat W di.index), Arg.ptr]] ∧
      (di.index < 2 ^ W → uintptrOfNat W di.index = di.index) ∧
      ((drv.ft_open (uintptrOfNat W di.index)).r = 0 →
        (Open W drv di).out
          = Outcome.returned (some (drv.ft_open (uintptrOfNat W di.index)).dev, none)) ∧
      ((drv.ft_open (uintptrOfNat W di.index)).r ≠ 0 →
        ∃ errno, (Open W drv di).out = Outcome.returned (none, some errno))) ∧
    propagatesStatus (Device.Close drv d) Proc.ft_close (drv.simple Proc.ft_close [d]).r ∧
    ((Device.GetStatus drv d).log = [statusCall d] ∧
      ∃ e, (Device.GetStatus drv d).out = Outcome.returned
          ((drv.ft_getStatus d).rx_queue, (drv.ft_getStatus d).tx_queue,
            (drv.ft_getStatus d).events, e) ∧
        (e = none ↔ (drv.ft_getStatus d).r = 0)) ∧
    (∀ (x : Nat) (xs : List Nat),
      (Device.Write W drv d (x :: xs)).log
        = [Event.call Proc.ft_write
            [Arg.val d, Arg.ptr, Arg.val (uint32OfNat (x :: xs).length), Arg.ptr]] ∧
      ∃ n e, (Device.Write W drv d (x :: xs)).out = Outcome.returned (n, e) ∧
        (e = none ↔ (drv.ft_write d (x :: xs) (uint32OfNat (x :: xs).length)).r = 0) ∧
        n = intOfNat W (drv.ft_write d (x :: xs) (uint32OfNat (x :: xs).length)).count ∧
        ((W = 32 ∨ W = 64) →
          (drv.ft_write d (x :: xs) (uint32OfNat (x :: xs).length)).count < 2 ^ (W - 1) →
          n = ((drv.ft_write d (x :: xs) (uint32OfNat (x :: xs).length)).count : Int))) ∧
    propagatesStatus (Device.Reset drv d) Proc.resetDevice
      (drv.simple Proc.resetDevice [d]).r ∧
    propagatesStatus (Device.Purge drv d) Proc.ft_purge (drv.simple Proc.ft_purge [d, 3]).r ∧
    (∀ baud : Nat, propagatesStatus (Device.SetBaudRate drv d baud) Proc.setBaudRate
      (drv.simple Proc.setBaudRate [d, baud % 4294967296]).r) ∧
    (∀ event err : Nat, propagatesStatus (Device.SetChars drv d event err) Proc.setChars
      (drv.simple Proc.setChars [d, event, event, err, err]).r) ∧
    (∀ mode : BitMode, propagatesStatus (Device.SetBitMode drv d mode) Proc.setBitMode
      (drv.simple Proc.setBitMode [d, 0, byteOfInt mode]).r) ∧
    (∀ f : FlowControl, propagatesStatus (Device.SetFlowControl drv d f) Proc.setFlowControl
      (drv.simple Proc.setFlowControl [d, uint16OfInt f, 17, 19]).r) ∧
    (∀ latency : Int, propagatesStatus (Device.SetLatency drv d latency) Proc.setLatency
      (drv.simple Proc.setLatency [d, byteOfInt latency]).r) ∧
    (∀ read_size write_size : Int,
      propagatesStatus (Device.SetTransferSize drv d read_size write_size)
        Proc.setTransferSize
        (drv.simple Proc.setTransferSize
          [d, uint32OfInt read_size, uint32OfInt write_size]).r) ∧
    (∀ props : LineProperties,
      propagatesStatus (Device.SetLineProperty drv d props) Proc.setLineProperty
        (drv.simple Proc.setLineProperty
          [d, byteOfInt props.Bits, byteOfInt props.StopBits, byteOfInt props.Parity]).r) ∧
    (∀ read_timeout write_timeout : Int,
      propagatesStatus (Device.SetTimeout drv d read_timeout write_timeout) Proc.setTimeout
        (drv.simple Proc.setTimeout
          [d, uint32OfInt read_timeout, uint32OfInt write_timeout]).r) := by
  refine ⟨?_, simpleCall_propagates _ _ _, ?_, ?_, simpleCall_propagates _ _ _,
    simpleCall_propagates _ _ _, fun _ => simpleCall_propagates _ _ _,
    fun _ _ => simpleCall_propagates _ _ _, fun _ => simpleCall_propagates _ _ _,
    fun _ => simpleCall_propagates _ _ _, fun _ => simpleCall_propagates _ _ _,
    fun _ _ => simpleCall_propagates _ _ _, fun _ => simpleCall_propagates _ _ _,
    fun _ _ => simpleCall_propagates _ _ _⟩
  · intro di
    refine ⟨rfl, ?_, ?_, ?_⟩
    · intro h
      unfold uintptrOfNat
      exact Nat.mod_eq_of_lt h
    · intro hr
      unfold Open
      simp [hr]
    · intro hr
      refine ⟨(drv.ft_open (uintptrOfNat W di.index)).err, ?_⟩
      unfold Open
      simp [hr]
  · refine ⟨rfl, ?_⟩
    unfold Device.GetStatus
    by_cases hr : (drv.ft_getStatus d).r = 0
    · exact ⟨none, by simp [hr], by simp [hr]⟩
    · exact ⟨some (drv.ft_getStatus d).err, by simp [hr], by simp [hr]⟩
  · intro x xs
    refine ⟨rfl, ?_⟩
    unfold Device.Write
    simp only [List.length_cons]
    by_cases hr : (drv.ft_write d (x :: xs) (uint32OfNat (xs.length + 1))).r = 0
    · exact ⟨_, none, by simp [hr], by simp [hr], rfl,
        fun hW hsmall => intOfNat_small W _ hW hsmall⟩
    · exact ⟨_, some (drv.ft_write d (x :: xs) (uint32OfNat (xs.length + 1))).err,
        by simp [hr], by simp [hr], rfl, fun hW hsmall => intOfNat_small W _ hW hsmall⟩

/-- C9 at scenario D (the native open call reports status 1: no Device) and at
a write of two bytes of which the native layer reports one written. -/
theorem single_call_status_propagation_witness :
    (Open 64 failingDriver DeviceInfo.zero).out = Outcome.returned (none, some 31) ∧
    (Open 64 quietDriver DeviceInfo.zero).out = Outcome.returned (some 0, none) ∧
    (Device.Write 64 shortWriteDriver 7 [65, 66]).out = Outcome.returned (1, none) ∧
    (∃ errno, (Open 64 failingDriver DeviceInfo.zero).out
      = Outcome.returned (none, some errno)) ∧
    propagatesStatus (Device.Close failingDriver 7) Proc.ft_close
      (failingDriver.simple Proc.ft_close [7]).r :=
  ⟨by decide, by decide, by decide,
   ((single_call_status_propagation 64 failingDriver 7).1 DeviceInfo.zero).2.2.2 (by decide),
   (single_call_status_propagation 64 failingDriver 7).2.1⟩

end Ftdi
